import Mathlib

/-
Verification of the payment-gateway core in `gateway.py`: fee policy,
acquirer failover routing, and the escrow record state machine.

Modelling conventions:
- Monetary values are rationals (the arithmetic the spec states).
- External collaborators (acquirers, custodian, Web3 oracle) are passed in
  as explicit outcome parameters, since the source only branches on their
  success/failure and returned payloads.
- The record store (`DatabaseService` over SQLite) is modelled as a list of
  records; `buscar_por_codigo` is first-match lookup and `atualizar_status`
  updates the first matching record, mirroring the `.first()` queries.
- Observable side effects needed by the properties (which acquirers were
  invoked, whether the custodian release endpoint was called, the
  out-of-order warning print) are returned as explicit trace fields.
-/

namespace Gateway

/-- Escrow lifecycle status, the `status_escrow` column values
`PENDENTE`, `TAXA_LIBERADA`, `FINALIZADO`, `CANCELADO`. -/
inductive Status where
  | PENDENTE
  | TAXA_LIBERADA
  | FINALIZADO
  | CANCELADO
deriving DecidableEq, Repr

/-- The `EscrowModel` row: code, payment reference, supplier, the two split
amounts, and lifecycle status (timestamps and the surrogate `id` are not
modelled; no property mentions them). -/
structure Escrow where
  codigo_escrow : String
  transaction_id : String
  id_fornecedor : String
  valor_taxa : ℚ
  valor_produto : ℚ
  status_escrow : Status
deriving DecidableEq, Repr

/-- `DatabaseService.buscar_por_codigo`: first record matching the code. -/
def buscar_por_codigo (db : List Escrow) (codigo_escrow : String) : Option Escrow :=
  db.find? (fun e => e.codigo_escrow == codigo_escrow)

/-- `DatabaseService.criar_escrow`: inserts a new record with status
`PENDENTE`. -/
def criar_escrow (db : List Escrow) (codigo_escrow transaction_id id_fornecedor : String)
    (valor_taxa valor_produto : ℚ) : List Escrow :=
  db ++ [{ codigo_escrow := codigo_escrow, transaction_id := transaction_id,
           id_fornecedor := id_fornecedor, valor_taxa := valor_taxa,
           valor_produto := valor_produto, status_escrow := Status.PENDENTE }]

/-- `DatabaseService.atualizar_status`: sets the status of the first record
matching the code (the `.first()` query), leaving the rest unchanged. -/
def atualizar_status : List Escrow → String → Status → List Escrow
  | [], _, _ => []
  | e :: resto, codigo, novo =>
      if e.codigo_escrow == codigo then { e with status_escrow := novo } :: resto
      else e :: atualizar_status resto codigo novo

/-- Outcome of the custodian split-registration call in `_registrar_escrow`:
`aceita c` is an HTTP 200/201 response whose JSON carries `escrow_code = c`
(`aceita none` when the field is absent, so `.get` falls back to the local
code); `falha` is any non-2xx status or a raised exception. -/
inductive CustodiaCriacao where
  | aceita (escrow_code : Option String)
  | falha
deriving DecidableEq, Repr

/-- Outcome of a custodian `/escrow/.../release` call: `ok` is HTTP 200;
`falha e` is a non-200 response (with `e` the response text) or a raised
exception (with `e` the exception message). -/
inductive CustodiaLiberacao where
  | ok
  | falha (erro : String)
deriving DecidableEq, Repr

/-- `_registrar_escrow`: the custodian-accepted code (when present)
supersedes the locally generated one, then the record is persisted under
the resulting code with status `PENDENTE`; the resulting code is returned. -/
def registrar_escrow (db : List Escrow) (codigo_local : String) (cust : CustodiaCriacao)
    (transaction_id id_fornecedor : String) (valor_taxa valor_produto : ℚ) :
    String × List Escrow :=
  let codigo_escrow :=
    match cust with
    | CustodiaCriacao.aceita (some c) => c
    | CustodiaCriacao.aceita none => codigo_local
    | CustodiaCriacao.falha => codigo_local
  (codigo_escrow,
   criar_escrow db codigo_escrow transaction_id id_fornecedor valor_taxa valor_produto)

/-- Normalized outcome of `_enviar_para_adquirente` for one acquirer:
`sucesso` is true exactly on HTTP 200/201; `transaction_id` is the
acquirer-assigned id on success; `erro` carries the decline body or the
transport-error message on failure. -/
structure RespostaEnvio where
  sucesso : Bool
  transaction_id : String
  erro : String
deriving DecidableEq, Repr

/-- The dictionary returned by `processar_pagamento_escrow`. -/
structure ResultadoPagamento where
  sucesso : Bool
  adquirente : Option String
  transaction_id : Option String
  codigo_escrow : Option String
  status : String
  erro : Option String
deriving DecidableEq, Repr

/-- `processar_pagamento_escrow`: tries the configured acquirers in order,
returning (and registering escrow) on the first success, else the aggregate
denial. The third component is the trace of acquirers actually invoked, one
entry per `_enviar_para_adquirente` call, in call order. -/
def processar_pagamento_escrow (enviar : String → RespostaEnvio)
    (cust : CustodiaCriacao) (codigo_local : String)
    (id_fornecedor : String) (valor_taxa valor_produto : ℚ) :
    List String → List Escrow → ResultadoPagamento × List Escrow × List String
  | [], db =>
      ({ sucesso := false, adquirente := none, transaction_id := none,
         codigo_escrow := none, status := "negado",
         erro := some "Todos os adquirentes falharam ao processar o pagamento" },
       db, [])
  | adquirente :: resto, db =>
      let resposta := enviar adquirente
      if resposta.sucesso then
        let reg := registrar_escrow db codigo_local cust resposta.transaction_id
          id_fornecedor valor_taxa valor_produto
        ({ sucesso := true, adquirente := some adquirente,
           transaction_id := some resposta.transaction_id,
           codigo_escrow := some reg.1, status := "em_custodia", erro := none },
         reg.2, [adquirente])
      else
        let r := processar_pagamento_escrow enviar cust codigo_local id_fornecedor
          valor_taxa valor_produto resto db
        (r.1, r.2.1, adquirente :: r.2.2)

/-- The configured routing priority (`roteamento_prioritario`). -/
def roteamento_prioritario : List String := ["AdquirenteA", "AdquirenteB"]

/-- The dictionary returned by `liberar_taxa` / `liberar_produto_fornecedor`:
success flag, error message if any, the new status and released amount on
success. -/
structure ResultadoLiberacao where
  sucesso : Bool
  erro : Option String
  novo_status : Option Status
  valor_liberado : Option ℚ
deriving DecidableEq, Repr

/-- Full observable outcome of a release operation: the returned
dictionary, the record store afterwards, whether the custodian release
endpoint was invoked, and whether the out-of-order warning (line 639,
`Liberando produto antes da taxa`) was printed. -/
structure SaidaLiberacao where
  resultado : ResultadoLiberacao
  db : List Escrow
  chamou_custodia : Bool
  aviso_fora_de_ordem : Bool
deriving DecidableEq, Repr

/-- `liberar_taxa`: guards (not found, canceled, finalized), then the
custodian release call; only on custodian success is the status updated to
`TAXA_LIBERADA`. -/
def liberar_taxa (db : List Escrow) (cust : CustodiaLiberacao) (codigo_escrow : String) :
    SaidaLiberacao :=
  match buscar_por_codigo db codigo_escrow with
  | none =>
      { resultado := { sucesso := false, erro := some "Código de escrow não encontrado",
                       novo_status := none, valor_liberado := none },
        db := db, chamou_custodia := false, aviso_fora_de_ordem := false }
  | some escrow_db =>
      if escrow_db.status_escrow = Status.CANCELADO then
        { resultado := { sucesso := false,
                         erro := some "Escrow cancelado, liberação não permitida",
                         novo_status := none, valor_liberado := none },
          db := db, chamou_custodia := false, aviso_fora_de_ordem := false }
      else if escrow_db.status_escrow = Status.FINALIZADO then
        { resultado := { sucesso := false,
                         erro := some "Escrow já foi finalizado anteriormente",
                         novo_status := none, valor_liberado := none },
          db := db, chamou_custodia := false, aviso_fora_de_ordem := false }
      else
        match cust with
        | CustodiaLiberacao.falha e =>
            { resultado := { sucesso := false, erro := some e,
                             novo_status := none, valor_liberado := none },
              db := db, chamou_custodia := true, aviso_fora_de_ordem := false }
        | CustodiaLiberacao.ok =>
            { resultado := { sucesso := true, erro := none,
                             novo_status := some Status.TAXA_LIBERADA,
                             valor_liberado := some escrow_db.valor_taxa },
              db := atualizar_status db codigo_escrow Status.TAXA_LIBERADA,
              chamou_custodia := true, aviso_fora_de_ordem := false }

/-- `liberar_produto_fornecedor`: same guards as `liberar_taxa`; if the
status is not `TAXA_LIBERADA` it proceeds anyway, only printing the
out-of-order warning; only on custodian success is the status updated to
`FINALIZADO`. -/
def liberar_produto_fornecedor (db : List Escrow) (cust : CustodiaLiberacao)
    (codigo_escrow : String) : SaidaLiberacao :=
  match buscar_por_codigo db codigo_escrow with
  | none =>
      { resultado := { sucesso := false, erro := some "Código de escrow não encontrado",
                       novo_status := none, valor_liberado := none },
        db := db, chamou_custodia := false, aviso_fora_de_ordem := false }
  | some escrow_db =>
      if escrow_db.status_escrow = Status.CANCELADO then
        { resultado := { sucesso := false,
                         erro := some "Escrow cancelado, liberação não permitida",
                         novo_status := none, valor_liberado := none },
          db := db, chamou_custodia := false, aviso_fora_de_ordem := false }
      else if escrow_db.status_escrow = Status.FINALIZADO then
        { resultado := { sucesso := false,
                         erro := some "Escrow já foi finalizado anteriormente",
                         novo_status := none, valor_liberado := none },
          db := db, chamou_custodia := false, aviso_fora_de_ordem := false }
      else
        let aviso := decide (escrow_db.status_escrow ≠ Status.TAXA_LIBERADA)
        match cust with
        | CustodiaLiberacao.falha e =>
            { resultado := { sucesso := false, erro := some e,
                             novo_status := none, valor_liberado := none },
              db := db, chamou_custodia := true, aviso_fora_de_ordem := aviso }
        | CustodiaLiberacao.ok =>
            { resultado := { sucesso := true, erro := none,
                             novo_status := some Status.FINALIZADO,
                             valor_liberado := some escrow_db.valor_produto },
              db := atualizar_status db codigo_escrow Status.FINALIZADO,
              chamou_custodia := true, aviso_fora_de_ordem := aviso }

/-- State of `VerificadorTokenWeb3` as built by its constructor, plus the
blockchain read oracle. `disponivel` is true when both `w3` and `contrato`
were initialized; `endereco_valido` is `w3.is_address`; `leitura_saldo`
models `balanceOf(...).call()`, with `none` standing for a raised
exception; `decimals` and `min_balance` come from the contract and
`Config.MIN_BALANCE_UNITS`. -/
structure VerificadorWeb3 where
  disponivel : Bool
  endereco_valido : String → Bool
  leitura_saldo : String → Option ℕ
  decimals : ℕ
  min_balance : ℕ

/-- The dictionary returned by `verificar_posse_token`. -/
structure VerificacaoToken where
  token_holder : Bool
  saldo : ℚ
  erro : Option String
deriving DecidableEq, Repr

/-- `VerificadorTokenWeb3.verificar_posse_token`: unavailable service,
invalid address, and a blockchain read error all yield
`token_holder = false` with an `erro` message; otherwise the holder flag is
`saldo ≥ MIN_BALANCE_UNITS` with `saldo = saldo_raw / 10 ^ decimals`. -/
def verificar_posse_token (v : VerificadorWeb3) (endereco_carteira : String) :
    VerificacaoToken :=
  if v.disponivel = false then
    { token_holder := false, saldo := 0, erro := some "Serviço Web3 não disponível" }
  else if v.endereco_valido endereco_carteira = false then
    { token_holder := false, saldo := 0, erro := some "Endereço de carteira inválido" }
  else
    match v.leitura_saldo endereco_carteira with
    | none =>
        { token_holder := false, saldo := 0,
          erro := some "Erro na leitura da blockchain" }
    | some saldo_raw =>
        let saldo : ℚ := (saldo_raw : ℚ) / 10 ^ v.decimals
        { token_holder := decide (saldo ≥ (v.min_balance : ℚ)), saldo := saldo,
          erro := none }

/-- `calcular_taxa` embeds the fee computation in `checkout` (lines
829-837): pick the holder rate (`TAXA_COM_TOKEN`) or the standard rate
(`TAXA_SEM_TOKEN`), then `valor_taxa = valor_produto * (percentual / 100)`
and `valor_total = valor_produto + valor_taxa`. Returns
(percentual_taxa, valor_taxa, valor_total). -/
def calcular_taxa (is_token_holder : Bool) (taxa_com_token taxa_sem_token : ℚ)
    (valor_produto : ℚ) : ℚ × ℚ × ℚ :=
  let percentual_taxa := if is_token_holder then taxa_com_token else taxa_sem_token
  let valor_taxa := valor_produto * (percentual_taxa / 100)
  (percentual_taxa, valor_taxa, valor_produto + valor_taxa)

/-- The request body fields of `/api/checkout` that drive control flow. -/
structure DadosCheckout where
  card_token : Option String
  valor_produto : ℚ
  id_fornecedor : Option String
  endereco_carteira : Option String

/-- The JSON response assembled by `checkout` (the fields the properties
are about: the `checkout` block, the `valores` block, and the web3 holder
flag). -/
structure RespostaCheckout where
  sucesso : Bool
  status_http : ℕ
  codigo_escrow : Option String
  transaction_id : Option String
  adquirente : Option String
  valores_produto : ℚ
  valores_taxa : ℚ
  percentual_taxa : ℚ
  valores_total : ℚ
  token_holder : Bool
  erro : Option String
deriving DecidableEq, Repr

/-- Outcome of the `checkout` endpoint: an early HTTP 400 validation
rejection, or a processed request carrying the assembled response and the
record store afterwards. -/
inductive SaidaCheckout where
  | rejeitado (erro : String)
  | processado (resposta : RespostaCheckout) (db : List Escrow)
deriving DecidableEq, Repr

/-- The `checkout` endpoint: validates card token, product amount and
supplier id; determines token holding (false when no wallet is given,
otherwise the oracle's `token_holder` field); computes the fee; routes the
payment through `processar_pagamento_escrow`; and assembles the response
with HTTP 200 on payment success and 400 on denial. -/
def checkout (v : VerificadorWeb3) (enviar : String → RespostaEnvio)
    (cust : CustodiaCriacao) (codigo_local : String)
    (taxa_com_token taxa_sem_token : ℚ) (roteamento : List String)
    (db : List Escrow) (dados : DadosCheckout) : SaidaCheckout :=
  match dados.card_token with
  | none =>
      SaidaCheckout.rejeitado
        "Token do cartão (card_token) não fornecido. O frontend deve tokenizar primeiro."
  | some _ =>
      if dados.valor_produto ≤ 0 then
        SaidaCheckout.rejeitado "Valor do produto inválido"
      else
        match dados.id_fornecedor with
        | none => SaidaCheckout.rejeitado "ID do fornecedor não informado"
        | some id_fornecedor =>
            let is_token_holder :=
              match dados.endereco_carteira with
              | none => false
              | some endereco => (verificar_posse_token v endereco).token_holder
            let taxas := calcular_taxa is_token_holder taxa_com_token taxa_sem_token
              dados.valor_produto
            let resultado := processar_pagamento_escrow enviar cust codigo_local
              id_fornecedor taxas.2.1 dados.valor_produto roteamento db
            SaidaCheckout.processado
              { sucesso := resultado.1.sucesso,
                status_http := if resultado.1.sucesso then 200 else 400,
                codigo_escrow := resultado.1.codigo_escrow,
                transaction_id := resultado.1.transaction_id,
                adquirente := resultado.1.adquirente,
                valores_produto := dados.valor_produto,
                valores_taxa := taxas.2.1,
                percentual_taxa := taxas.1,
                valores_total := taxas.2.2,
                token_holder := is_token_holder,
                erro := resultado.1.erro }
              resultado.2.1

/-
Helper lemmas about the record store.
-/

/-- Updating the status of the record a lookup finds, and looking it up
again, yields the same record with the new status. -/
theorem buscar_atualizar_mesmo (db : List Escrow) (codigo : String) (e : Escrow)
    (novo : Status) (h : buscar_por_codigo db codigo = some e) :
    buscar_por_codigo (atualizar_status db codigo novo) codigo
      = some { e with status_escrow := novo } := by
  induction db with
  | nil => simp [buscar_por_codigo] at h
  | cons a resto ih =>
      by_cases hac : a.codigo_escrow = codigo
      · simp [buscar_por_codigo, atualizar_status, hac] at h ⊢
        subst h
        exact ⟨hac.symm, rfl, rfl, rfl, rfl⟩
      · simp [buscar_por_codigo, atualizar_status, hac] at h ⊢
        exact ih h

/-- `_registrar_escrow` always appends exactly one record, whose stored
code is the returned code. -/
theorem registrar_escrow_existe (db : List Escrow) (codigo_local : String)
    (cust : CustodiaCriacao) (transaction_id id_fornecedor : String)
    (valor_taxa valor_produto : ℚ) :
    ∃ e : Escrow,
      registrar_escrow db codigo_local cust transaction_id id_fornecedor
          valor_taxa valor_produto
        = (e.codigo_escrow, db ++ [e]) := by
  cases cust with
  | falha =>
      exact ⟨{ codigo_escrow := codigo_local, transaction_id := transaction_id,
               id_fornecedor := id_fornecedor, valor_taxa := valor_taxa,
               valor_produto := valor_produto, status_escrow := Status.PENDENTE }, rfl⟩
  | aceita c =>
      cases c with
      | none =>
          exact ⟨{ codigo_escrow := codigo_local, transaction_id := transaction_id,
                   id_fornecedor := id_fornecedor, valor_taxa := valor_taxa,
                   valor_produto := valor_produto, status_escrow := Status.PENDENTE }, rfl⟩
      | some codigo_psp =>
          exact ⟨{ codigo_escrow := codigo_psp, transaction_id := transaction_id,
                   id_fornecedor := id_fornecedor, valor_taxa := valor_taxa,
                   valor_produto := valor_produto, status_escrow := Status.PENDENTE }, rfl⟩

/-
C1: fee policy.
-/

/-- C1: the fee evaluation uses the configured holder rate when the buyer
is a token holder and the configured standard rate otherwise, and computes
`valor_taxa = valor_produto * percentual / 100` and
`valor_total = valor_produto + valor_taxa`; concretely, with rates 2%/5%
on product 100, a holder pays fee 2 and total 102, a non-holder fee 5 and
total 105. -/
theorem calcular_taxa_spec (holder : Bool) (taxa_com taxa_sem valor_produto : ℚ)
    (h : 0 < valor_produto) :
    (calcular_taxa holder taxa_com taxa_sem valor_produto).1
        = (if holder then taxa_com else taxa_sem)
    ∧ (calcular_taxa holder taxa_com taxa_sem valor_produto).2.1
        = valor_produto * (calcular_taxa holder taxa_com taxa_sem valor_produto).1 / 100
    ∧ (calcular_taxa holder taxa_com taxa_sem valor_produto).2.2
        = valor_produto + (calcular_taxa holder taxa_com taxa_sem valor_produto).2.1
    ∧ calcular_taxa true 2 5 100 = (2, 2, 102)
    ∧ calcular_taxa false 2 5 100 = (5, 5, 105) := by
  refine ⟨rfl, ?_, rfl, by norm_num [calcular_taxa], by norm_num [calcular_taxa]⟩
  simp only [calcular_taxa]
  rw [mul_div_assoc]

/-- Witness for `calcular_taxa_spec` at holder = true, rates 2 and 5,
product 100. -/
theorem calcular_taxa_spec_witness :
    (0 : ℚ) < 100 ∧
      ((calcular_taxa true 2 5 100).1 = (if true then (2 : ℚ) else 5)
       ∧ (calcular_taxa true 2 5 100).2.1
           = 100 * (calcular_taxa true 2 5 100).1 / 100
       ∧ (calcular_taxa true 2 5 100).2.2
           = 100 + (calcular_taxa true 2 5 100).2.1
       ∧ calcular_taxa true 2 5 100 = (2, 2, 102)
       ∧ calcular_taxa false 2 5 100 = (5, 5, 105)) :=
  ⟨by norm_num, calcular_taxa_spec true 2 5 100 (by norm_num)⟩

/-
C9: escrow creation and custodian code precedence.
-/

/-- C9: escrow creation persists exactly one record; when the custodian
accepts and returns its own code, that code replaces the local one before
the record is persisted and the returned code equals the persisted one;
when the custodian registration fails (or accepts without returning a
code), the record is persisted under the locally generated code. -/
theorem registrar_escrow_codigo (db : List Escrow)
    (codigo_local codigo_psp transaction_id id_fornecedor : String)
    (valor_taxa valor_produto : ℚ) :
    registrar_escrow db codigo_local (CustodiaCriacao.aceita (some codigo_psp))
        transaction_id id_fornecedor valor_taxa valor_produto
      = (codigo_psp,
         db ++ [{ codigo_escrow := codigo_psp, transaction_id := transaction_id,
                  id_fornecedor := id_fornecedor, valor_taxa := valor_taxa,
                  valor_produto := valor_produto, status_escrow := Status.PENDENTE }])
    ∧ registrar_escrow db codigo_local CustodiaCriacao.falha
        transaction_id id_fornecedor valor_taxa valor_produto
      = (codigo_local,
         db ++ [{ codigo_escrow := codigo_local, transaction_id := transaction_id,
                  id_fornecedor := id_fornecedor, valor_taxa := valor_taxa,
                  valor_produto := valor_produto, status_escrow := Status.PENDENTE }])
    ∧ registrar_escrow db codigo_local (CustodiaCriacao.aceita none)
        transaction_id id_fornecedor valor_taxa valor_produto
      = (codigo_local,
         db ++ [{ codigo_escrow := codigo_local, transaction_id := transaction_id,
                  id_fornecedor := id_fornecedor, valor_taxa := valor_taxa,
                  valor_produto := valor_produto, status_escrow := Status.PENDENTE }]) :=
  ⟨rfl, rfl, rfl⟩

/-
C4: release guards.
-/

/-- C4: on an unknown escrow code both release operations fail with the
not-found error, leave the store unchanged and make no custodian call; on
a record whose status is `CANCELADO` or `FINALIZADO` both operations fail
with the corresponding invalid-transition error, leave the store unchanged
and make no custodian call. -/
theorem liberar_guardas (db : List Escrow) (cust : CustodiaLiberacao) (codigo : String) :
    (buscar_por_codigo db codigo = none →
        liberar_taxa db cust codigo
          = { resultado := { sucesso := false,
                             erro := some "Código de escrow não encontrado",
                             novo_status := none, valor_liberado := none },
              db := db, chamou_custodia := false, aviso_fora_de_ordem := false }
      ∧ liberar_produto_fornecedor db cust codigo
          = { resultado := { sucesso := false,
                             erro := some "Código de escrow não encontrado",
                             novo_status := none, valor_liberado := none },
              db := db, chamou_custodia := false, aviso_fora_de_ordem := false })
    ∧ (∀ e : Escrow, buscar_por_codigo db codigo = some e →
        e.status_escrow = Status.CANCELADO ∨ e.status_escrow = Status.FINALIZADO →
          liberar_taxa db cust codigo
            = { resultado := { sucesso := false,
                               erro := some (if e.status_escrow = Status.CANCELADO then
                                   "Escrow cancelado, liberação não permitida"
                                 else "Escrow já foi finalizado anteriormente"),
                               novo_status := none, valor_liberado := none },
                db := db, chamou_custodia := false, aviso_fora_de_ordem := false }
        ∧ liberar_produto_fornecedor db cust codigo
            = { resultado := { sucesso := false,
                               erro := some (if e.status_escrow = Status.CANCELADO then
                                   "Escrow cancelado, liberação não permitida"
                                 else "Escrow já foi finalizado anteriormente"),
                               novo_status := none, valor_liberado := none },
                db := db, chamou_custodia := false, aviso_fora_de_ordem := false }) := by
  constructor
  · intro hnone
    constructor
    · simp [liberar_taxa, hnone]
    · simp [liberar_produto_fornecedor, hnone]
  · intro e hfind hterm
    rcases hterm with hterm | hterm
    · constructor
      · simp [liberar_taxa, hfind, hterm]
      · simp [liberar_produto_fornecedor, hfind, hterm]
    · constructor
      · simp [liberar_taxa, hfind, hterm]
      · simp [liberar_produto_fornecedor, hfind, hterm]

/-- Witness for `liberar_guardas`: the unknown code `ESC_X` on the empty
store, and a canceled record. -/
theorem liberar_guardas_witness :
    (liberar_taxa [] CustodiaLiberacao.ok "ESC_X"
        = { resultado := { sucesso := false,
                           erro := some "Código de escrow não encontrado",
                           novo_status := none, valor_liberado := none },
            db := [], chamou_custodia := false, aviso_fora_de_ordem := false }
      ∧ liberar_produto_fornecedor [] CustodiaLiberacao.ok "ESC_X"
        = { resultado := { sucesso := false,
                           erro := some "Código de escrow não encontrado",
                           novo_status := none, valor_liberado := none },
            db := [], chamou_custodia := false, aviso_fora_de_ordem := false })
    ∧ (liberar_taxa
          [{ codigo_escrow := "ESC_C", transaction_id := "T1", id_fornecedor := "F1",
             valor_taxa := 5, valor_produto := 100,
             status_escrow := Status.CANCELADO }] CustodiaLiberacao.ok "ESC_C").resultado.sucesso
        = false := by
  constructor
  · exact (liberar_guardas [] CustodiaLiberacao.ok "ESC_X").1 (by rfl)
  · have h := ((liberar_guardas
        [{ codigo_escrow := "ESC_C", transaction_id := "T1", id_fornecedor := "F1",
           valor_taxa := 5, valor_produto := 100,
           status_escrow := Status.CANCELADO }] CustodiaLiberacao.ok "ESC_C").2
      { codigo_escrow := "ESC_C", transaction_id := "T1", id_fornecedor := "F1",
        valor_taxa := 5, valor_produto := 100, status_escrow := Status.CANCELADO }
      (by rfl) (Or.inl rfl)).1
    rw [h]

/-
C5: atomicity of release on custodian failure.
-/

/-- C5: on an existing non-terminal record, a failing custodian call makes
both release operations return a failure carrying the custodian's error
with the store completely unchanged, while a successful custodian call is
exactly when the status change is persisted. -/
theorem liberar_atomicidade (db : List Escrow) (codigo : String) (e : Escrow)
    (erro_cust : String)
    (hfind : buscar_por_codigo db codigo = some e)
    (hc : e.status_escrow ≠ Status.CANCELADO)
    (hf : e.status_escrow ≠ Status.FINALIZADO) :
    liberar_taxa db (CustodiaLiberacao.falha erro_cust) codigo
      = { resultado := { sucesso := false, erro := some erro_cust,
                         novo_status := none, valor_liberado := none },
          db := db, chamou_custodia := true, aviso_fora_de_ordem := false }
    ∧ (liberar_produto_fornecedor db (CustodiaLiberacao.falha erro_cust) codigo).resultado
        = { sucesso := false, erro := some erro_cust,
            novo_status := none, valor_liberado := none }
    ∧ (liberar_produto_fornecedor db (CustodiaLiberacao.falha erro_cust) codigo).db = db
    ∧ (liberar_taxa db CustodiaLiberacao.ok codigo).db
        = atualizar_status db codigo Status.TAXA_LIBERADA
    ∧ (liberar_produto_fornecedor db CustodiaLiberacao.ok codigo).db
        = atualizar_status db codigo Status.FINALIZADO := by
  refine ⟨?_, ?_, ?_, ?_, ?_⟩ <;>
    simp [liberar_taxa, liberar_produto_fornecedor, hfind, hc, hf]

/-- Witness for `liberar_atomicidade`: a pending record whose custodian
release call fails with a timeout message. -/
theorem liberar_atomicidade_witness :
    liberar_taxa
        [{ codigo_escrow := "ESC_P", transaction_id := "T1", id_fornecedor := "F1",
           valor_taxa := 5, valor_produto := 100, status_escrow := Status.PENDENTE }]
        (CustodiaLiberacao.falha "timeout") "ESC_P"
      = { resultado := { sucesso := false, erro := some "timeout",
                         novo_status := none, valor_liberado := none },
          db := [{ codigo_escrow := "ESC_P", transaction_id := "T1",
                   id_fornecedor := "F1", valor_taxa := 5, valor_produto := 100,
                   status_escrow := Status.PENDENTE }],
          chamou_custodia := true, aviso_fora_de_ordem := false } :=
  (liberar_atomicidade
      [{ codigo_escrow := "ESC_P", transaction_id := "T1", id_fornecedor := "F1",
         valor_taxa := 5, valor_produto := 100, status_escrow := Status.PENDENTE }]
      "ESC_P"
      { codigo_escrow := "ESC_P", transaction_id := "T1", id_fornecedor := "F1",
        valor_taxa := 5, valor_produto := 100, status_escrow := Status.PENDENTE }
      "timeout" (by rfl) (by simp) (by simp)).1

/-
C7: out-of-order product release.
-/

/-- C7: on an existing record that is neither `CANCELADO` nor
`FINALIZADO`, `liberar_produto_fornecedor` always proceeds to the
custodian call, flags the out-of-order warning exactly when the status is
not `TAXA_LIBERADA`, and on custodian success transitions the status
directly to `FINALIZADO`. -/
theorem liberar_produto_fora_de_ordem (db : List Escrow) (codigo : String)
    (e : Escrow) (cust : CustodiaLiberacao)
    (hfind : buscar_por_codigo db codigo = some e)
    (hc : e.status_escrow ≠ Status.CANCELADO)
    (hf : e.status_escrow ≠ Status.FINALIZADO) :
    (liberar_produto_fornecedor db cust codigo).chamou_custodia = true
    ∧ (liberar_produto_fornecedor db cust codigo).aviso_fora_de_ordem
        = decide (e.status_escrow ≠ Status.TAXA_LIBERADA)
    ∧ (liberar_produto_fornecedor db CustodiaLiberacao.ok codigo).resultado.sucesso = true
    ∧ (liberar_produto_fornecedor db CustodiaLiberacao.ok codigo).resultado.novo_status
        = some Status.FINALIZADO
    ∧ buscar_por_codigo (liberar_produto_fornecedor db CustodiaLiberacao.ok codigo).db
          codigo
        = some { e with status_escrow := Status.FINALIZADO } := by
  have hok : (liberar_produto_fornecedor db CustodiaLiberacao.ok codigo).db
      = atualizar_status db codigo Status.FINALIZADO := by
    simp [liberar_produto_fornecedor, hfind, hc, hf]
  refine ⟨?_, ?_, ?_, ?_, ?_⟩
  · cases cust <;> simp [liberar_produto_fornecedor, hfind, hc, hf]
  · cases cust <;> simp [liberar_produto_fornecedor, hfind, hc, hf]
  · simp [liberar_produto_fornecedor, hfind, hc, hf]
  · simp [liberar_produto_fornecedor, hfind, hc, hf]
  · rw [hok]
    exact buscar_atualizar_mesmo db codigo e Status.FINALIZADO hfind

/-- Witness for `liberar_produto_fora_de_ordem`: a still-`PENDENTE` record
released out of order with a successful custodian call. -/
theorem liberar_produto_fora_de_ordem_witness :
    (liberar_produto_fornecedor
        [{ codigo_escrow := "ESC_P", transaction_id := "T1", id_fornecedor := "F1",
           valor_taxa := 5, valor_produto := 100, status_escrow := Status.PENDENTE }]
        CustodiaLiberacao.ok "ESC_P").chamou_custodia = true
    ∧ (liberar_produto_fornecedor
        [{ codigo_escrow := "ESC_P", transaction_id := "T1", id_fornecedor := "F1",
           valor_taxa := 5, valor_produto := 100, status_escrow := Status.PENDENTE }]
        CustodiaLiberacao.ok "ESC_P").aviso_fora_de_ordem
        = decide (Status.PENDENTE ≠ Status.TAXA_LIBERADA)
    ∧ (liberar_produto_fornecedor
        [{ codigo_escrow := "ESC_P", transaction_id := "T1", id_fornecedor := "F1",
           valor_taxa := 5, valor_produto := 100, status_escrow := Status.PENDENTE }]
        CustodiaLiberacao.ok "ESC_P").resultado.sucesso = true
    ∧ (liberar_produto_fornecedor
        [{ codigo_escrow := "ESC_P", transaction_id := "T1", id_fornecedor := "F1",
           valor_taxa := 5, valor_produto := 100, status_escrow := Status.PENDENTE }]
        CustodiaLiberacao.ok "ESC_P").resultado.novo_status = some Status.FINALIZADO
    ∧ buscar_por_codigo
        (liberar_produto_fornecedor
          [{ codigo_escrow := "ESC_P", transaction_id := "T1", id_fornecedor := "F1",
             valor_taxa := 5, valor_produto := 100, status_escrow := Status.PENDENTE }]
          CustodiaLiberacao.ok "ESC_P").db "ESC_P"
        = some { codigo_escrow := "ESC_P", transaction_id := "T1",
                 id_fornecedor := "F1", valor_taxa := 5, valor_produto := 100,
                 status_escrow := Status.FINALIZADO } :=
  liberar_produto_fora_de_ordem
    [{ codigo_escrow := "ESC_P", transaction_id := "T1", id_fornecedor := "F1",
       valor_taxa := 5, valor_produto := 100, status_escrow := Status.PENDENTE }]
    "ESC_P"
    { codigo_escrow := "ESC_P", transaction_id := "T1", id_fornecedor := "F1",
      valor_taxa := 5, valor_produto := 100, status_escrow := Status.PENDENTE }
    CustodiaLiberacao.ok (by rfl) (by simp) (by simp)

/-
C10: repeated fee release is not blocked.
-/

/-- C10: a record whose status is already `TAXA_LIBERADA` passes the
terminal-state guards of `liberar_taxa`, so a repeated call performs the
custodian fee release again, succeeds, and rewrites the status to
`TAXA_LIBERADA` — the platform fee can be released more than once for the
same escrow code. -/
theorem liberar_taxa_repetida (db : List Escrow) (codigo : String) (e : Escrow)
    (hfind : buscar_por_codigo db codigo = some e)
    (hst : e.status_escrow = Status.TAXA_LIBERADA) :
    (liberar_taxa db CustodiaLiberacao.ok codigo).chamou_custodia = true
    ∧ (liberar_taxa db CustodiaLiberacao.ok codigo).resultado.sucesso = true
    ∧ (liberar_taxa db CustodiaLiberacao.ok codigo).resultado.novo_status
        = some Status.TAXA_LIBERADA
    ∧ (liberar_taxa db CustodiaLiberacao.ok codigo).resultado.valor_liberado
        = some e.valor_taxa
    ∧ (liberar_taxa db CustodiaLiberacao.ok codigo).db
        = atualizar_status db codigo Status.TAXA_LIBERADA
    ∧ buscar_por_codigo (liberar_taxa db CustodiaLiberacao.ok codigo).db codigo
        = some { e with status_escrow := Status.TAXA_LIBERADA } := by
  have hdb : (liberar_taxa db CustodiaLiberacao.ok codigo).db
      = atualizar_status db codigo Status.TAXA_LIBERADA := by
    simp [liberar_taxa, hfind, hst]
  refine ⟨?_, ?_, ?_, ?_, hdb, ?_⟩
  · simp [liberar_taxa, hfind, hst]
  · simp [liberar_taxa, hfind, hst]
  · simp [liberar_taxa, hfind, hst]
  · simp [liberar_taxa, hfind, hst]
  · rw [hdb]
    exact buscar_atualizar_mesmo db codigo e Status.TAXA_LIBERADA hfind

/-- Witness for `liberar_taxa_repetida`: a record already at
`TAXA_LIBERADA` has its fee released again successfully. -/
theorem liberar_taxa_repetida_witness :
    (liberar_taxa
        [{ codigo_escrow := "ESC_R", transaction_id := "T1", id_fornecedor := "F1",
           valor_taxa := 5, valor_produto := 100,
           status_escrow := Status.TAXA_LIBERADA }]
        CustodiaLiberacao.ok "ESC_R").chamou_custodia = true
    ∧ (liberar_taxa
        [{ codigo_escrow := "ESC_R", transaction_id := "T1", id_fornecedor := "F1",
           valor_taxa := 5, valor_produto := 100,
           status_escrow := Status.TAXA_LIBERADA }]
        CustodiaLiberacao.ok "ESC_R").resultado.sucesso = true
    ∧ (liberar_taxa
        [{ codigo_escrow := "ESC_R", transaction_id := "T1", id_fornecedor := "F1",
           valor_taxa := 5, valor_produto := 100,
           status_escrow := Status.TAXA_LIBERADA }]
        CustodiaLiberacao.ok "ESC_R").resultado.novo_status
        = some Status.TAXA_LIBERADA
    ∧ (liberar_taxa
        [{ codigo_escrow := "ESC_R", transaction_id := "T1", id_fornecedor := "F1",
           valor_taxa := 5, valor_produto := 100,
           status_escrow := Status.TAXA_LIBERADA }]
        CustodiaLiberacao.ok "ESC_R").resultado.valor_liberado = some 5
    ∧ (liberar_taxa
        [{ codigo_escrow := "ESC_R", transaction_id := "T1", id_fornecedor := "F1",
           valor_taxa := 5, valor_produto := 100,
           status_escrow := Status.TAXA_LIBERADA }]
        CustodiaLiberacao.ok "ESC_R").db
        = atualizar_status
            [{ codigo_escrow := "ESC_R", transaction_id := "T1",
               id_fornecedor := "F1", valor_taxa := 5, valor_produto := 100,
               status_escrow := Status.TAXA_LIBERADA }] "ESC_R" Status.TAXA_LIBERADA
    ∧ buscar_por_codigo
        (liberar_taxa
          [{ codigo_escrow := "ESC_R", transaction_id := "T1", id_fornecedor := "F1",
             valor_taxa := 5, valor_produto := 100,
             status_escrow := Status.TAXA_LIBERADA }]
          CustodiaLiberacao.ok "ESC_R").db "ESC_R"
        = some { codigo_escrow := "ESC_R", transaction_id := "T1",
                 id_fornecedor := "F1", valor_taxa := 5, valor_produto := 100,
                 status_escrow := Status.TAXA_LIBERADA } :=
  liberar_taxa_repetida
    [{ codigo_escrow := "ESC_R", transaction_id := "T1", id_fornecedor := "F1",
       valor_taxa := 5, valor_produto := 100, status_escrow := Status.TAXA_LIBERADA }]
    "ESC_R"
    { codigo_escrow := "ESC_R", transaction_id := "T1", id_fornecedor := "F1",
      valor_taxa := 5, valor_produto := 100, status_escrow := Status.TAXA_LIBERADA }
    (by rfl) (by rfl)

/-- Helper: `liberar_taxa` on a record already `FINALIZADO` returns the
already-finalized error and changes nothing, for any custodian outcome. -/
theorem liberar_taxa_em_finalizado (db : List Escrow) (cust : CustodiaLiberacao)
    (codigo : String) (e : Escrow)
    (hfind : buscar_por_codigo db codigo = some e)
    (hst : e.status_escrow = Status.FINALIZADO) :
    liberar_taxa db cust codigo
      = { resultado := { sucesso := false,
                         erro := some "Escrow já foi finalizado anteriormente",
                         novo_status := none, valor_liberado := none },
          db := db, chamou_custodia := false, aviso_fora_de_ordem := false } := by
  simp [liberar_taxa, hfind, hst]

/-- Helper: `liberar_produto_fornecedor` on a record already `FINALIZADO`
returns the already-finalized error and changes nothing, for any custodian
outcome. -/
theorem liberar_produto_em_finalizado (db : List Escrow) (cust : CustodiaLiberacao)
    (codigo : String) (e : Escrow)
    (hfind : buscar_por_codigo db codigo = some e)
    (hst : e.status_escrow = Status.FINALIZADO) :
    liberar_produto_fornecedor db cust codigo
      = { resultado := { sucesso := false,
                         erro := some "Escrow já foi finalizado anteriormente",
                         novo_status := none, valor_liberado := none },
          db := db, chamou_custodia := false, aviso_fora_de_ordem := false } := by
  simp [liberar_produto_fornecedor, hfind, hst]

/-
C6: the happy-path lifecycle.
-/

/-- C6: on a record created with status `PENDENTE`, a successful
`liberar_taxa` followed by a successful `liberar_produto_fornecedor` on
the same code drives the status along
`PENDENTE → TAXA_LIBERADA → FINALIZADO`, and any third release call of
either kind on the now-`FINALIZADO` record (whatever the custodian would
answer) fails with the already-finalized error and mutates nothing. -/
theorem escrow_ciclo (db : List Escrow) (codigo : String) (e : Escrow)
    (cust : CustodiaLiberacao)
    (hfind : buscar_por_codigo db codigo = some e)
    (hst : e.status_escrow = Status.PENDENTE) :
    (liberar_taxa db CustodiaLiberacao.ok codigo).resultado.sucesso = true
    ∧ (liberar_taxa db CustodiaLiberacao.ok codigo).resultado.novo_status
        = some Status.TAXA_LIBERADA
    ∧ buscar_por_codigo (liberar_taxa db CustodiaLiberacao.ok codigo).db codigo
        = some { e with status_escrow := Status.TAXA_LIBERADA }
    ∧ (liberar_produto_fornecedor (liberar_taxa db CustodiaLiberacao.ok codigo).db
          CustodiaLiberacao.ok codigo).resultado.sucesso = true
    ∧ (liberar_produto_fornecedor (liberar_taxa db CustodiaLiberacao.ok codigo).db
          CustodiaLiberacao.ok codigo).resultado.novo_status = some Status.FINALIZADO
    ∧ (liberar_produto_fornecedor (liberar_taxa db CustodiaLiberacao.ok codigo).db
          CustodiaLiberacao.ok codigo).aviso_fora_de_ordem = false
    ∧ buscar_por_codigo
          (liberar_produto_fornecedor (liberar_taxa db CustodiaLiberacao.ok codigo).db
            CustodiaLiberacao.ok codigo).db codigo
        = some { e with status_escrow := Status.FINALIZADO }
    ∧ liberar_taxa
          (liberar_produto_fornecedor (liberar_taxa db CustodiaLiberacao.ok codigo).db
            CustodiaLiberacao.ok codigo).db cust codigo
        = { resultado := { sucesso := false,
                           erro := some "Escrow já foi finalizado anteriormente",
                           novo_status := none, valor_liberado := none },
            db := (liberar_produto_fornecedor
                    (liberar_taxa db CustodiaLiberacao.ok codigo).db
                    CustodiaLiberacao.ok codigo).db,
            chamou_custodia := false, aviso_fora_de_ordem := false }
    ∧ liberar_produto_fornecedor
          (liberar_produto_fornecedor (liberar_taxa db CustodiaLiberacao.ok codigo).db
            CustodiaLiberacao.ok codigo).db cust codigo
        = { resultado := { sucesso := false,
                           erro := some "Escrow já foi finalizado anteriormente",
                           novo_status := none, valor_liberado := none },
            db := (liberar_produto_fornecedor
                    (liberar_taxa db CustodiaLiberacao.ok codigo).db
                    CustodiaLiberacao.ok codigo).db,
            chamou_custodia := false, aviso_fora_de_ordem := false } := by
  have hc : e.status_escrow ≠ Status.CANCELADO := by rw [hst]; exact fun h => by cases h
  have hf : e.status_escrow ≠ Status.FINALIZADO := by rw [hst]; exact fun h => by cases h
  have hdb1 : (liberar_taxa db CustodiaLiberacao.ok codigo).db
      = atualizar_status db codigo Status.TAXA_LIBERADA := by
    simp [liberar_taxa, hfind, hc, hf]
  have hfind1 : buscar_por_codigo (liberar_taxa db CustodiaLiberacao.ok codigo).db codigo
      = some { e with status_escrow := Status.TAXA_LIBERADA } := by
    rw [hdb1]
    exact buscar_atualizar_mesmo db codigo e Status.TAXA_LIBERADA hfind
  have hdb2 : (liberar_produto_fornecedor (liberar_taxa db CustodiaLiberacao.ok codigo).db
        CustodiaLiberacao.ok codigo).db
      = atualizar_status (liberar_taxa db CustodiaLiberacao.ok codigo).db codigo
          Status.FINALIZADO := by
    simp [liberar_produto_fornecedor, hfind1]
  have hfind2 : buscar_por_codigo
        (liberar_produto_fornecedor (liberar_taxa db CustodiaLiberacao.ok codigo).db
          CustodiaLiberacao.ok codigo).db codigo
      = some { e with status_escrow := Status.FINALIZADO } := by
    rw [hdb2]
    exact buscar_atualizar_mesmo (liberar_taxa db CustodiaLiberacao.ok codigo).db codigo
      { e with status_escrow := Status.TAXA_LIBERADA } Status.FINALIZADO hfind1
  refine ⟨?_, ?_, hfind1, ?_, ?_, ?_, hfind2, ?_, ?_⟩
  · simp [liberar_taxa, hfind, hc, hf]
  · simp [liberar_taxa, hfind, hc, hf]
  · simp [liberar_produto_fornecedor, hfind1]
  · simp [liberar_produto_fornecedor, hfind1]
  · simp [liberar_produto_fornecedor, hfind1]
  · exact liberar_taxa_em_finalizado _ cust codigo _ hfind2 rfl
  · exact liberar_produto_em_finalizado _ cust codigo _ hfind2 rfl

/-- Witness for `escrow_ciclo`: the full lifecycle on a one-record store,
with the third calls taken at a custodian that would succeed. -/
theorem escrow_ciclo_witness :
    (liberar_taxa
        [{ codigo_escrow := "ESC_W", transaction_id := "T1", id_fornecedor := "F1",
           valor_taxa := 5, valor_produto := 100, status_escrow := Status.PENDENTE }]
        CustodiaLiberacao.ok "ESC_W").resultado.sucesso = true
    ∧ (liberar_taxa
        [{ codigo_escrow := "ESC_W", transaction_id := "T1", id_fornecedor := "F1",
           valor_taxa := 5, valor_produto := 100, status_escrow := Status.PENDENTE }]
        CustodiaLiberacao.ok "ESC_W").resultado.novo_status
        = some Status.TAXA_LIBERADA
    ∧ buscar_por_codigo
        (liberar_taxa
          [{ codigo_escrow := "ESC_W", transaction_id := "T1", id_fornecedor := "F1",
             valor_taxa := 5, valor_produto := 100, status_escrow := Status.PENDENTE }]
          CustodiaLiberacao.ok "ESC_W").db "ESC_W"
        = some { codigo_escrow := "ESC_W", transaction_id := "T1",
                 id_fornecedor := "F1", valor_taxa := 5, valor_produto := 100,
                 status_escrow := Status.TAXA_LIBERADA }
    ∧ (liberar_produto_fornecedor
        (liberar_taxa
          [{ codigo_escrow := "ESC_W", transaction_id := "T1", id_fornecedor := "F1",
             valor_taxa := 5, valor_produto := 100, status_escrow := Status.PENDENTE }]
          CustodiaLiberacao.ok "ESC_W").db
        CustodiaLiberacao.ok "ESC_W").resultado.sucesso = true
    ∧ (liberar_produto_fornecedor
        (liberar_taxa
          [{ codigo_escrow := "ESC_W", transaction_id := "T1", id_fornecedor := "F1",
             valor_taxa := 5, valor_produto := 100, status_escrow := Status.PENDENTE }]
          CustodiaLiberacao.ok "ESC_W").db
        CustodiaLiberacao.ok "ESC_W").resultado.novo_status = some Status.FINALIZADO
    ∧ (liberar_produto_fornecedor
        (liberar_taxa
          [{ codigo_escrow := "ESC_W", transaction_id := "T1", id_fornecedor := "F1",
             valor_taxa := 5, valor_produto := 100, status_escrow := Status.PENDENTE }]
          CustodiaLiberacao.ok "ESC_W").db
        CustodiaLiberacao.ok "ESC_W").aviso_fora_de_ordem = false
    ∧ buscar_por_codigo
        (liberar_produto_fornecedor
          (liberar_taxa
            [{ codigo_escrow := "ESC_W", transaction_id := "T1",
               id_fornecedor := "F1", valor_taxa := 5, valor_produto := 100,
               status_escrow := Status.PENDENTE }]
            CustodiaLiberacao.ok "ESC_W").db
          CustodiaLiberacao.ok "ESC_W").db "ESC_W"
        = some { codigo_escrow := "ESC_W", transaction_id := "T1",
                 id_fornecedor := "F1", valor_taxa := 5, valor_produto := 100,
                 status_escrow := Status.FINALIZADO }
    ∧ liberar_taxa
        (liberar_produto_fornecedor
          (liberar_taxa
            [{ codigo_escrow := "ESC_W", transaction_id := "T1",
               id_fornecedor := "F1", valor_taxa := 5, valor_produto := 100,
               status_escrow := Status.PENDENTE }]
            CustodiaLiberacao.ok "ESC_W").db
          CustodiaLiberacao.ok "ESC_W").db CustodiaLiberacao.ok "ESC_W"
        = { resultado := { sucesso := false,
                           erro := some "Escrow já foi finalizado anteriormente",
                           novo_status := none, valor_liberado := none },
            db := (liberar_produto_fornecedor
                    (liberar_taxa
                      [{ codigo_escrow := "ESC_W", transaction_id := "T1",
                         id_fornecedor := "F1", valor_taxa := 5,
                         valor_produto := 100, status_escrow := Status.PENDENTE }]
                      CustodiaLiberacao.ok "ESC_W").db
                    CustodiaLiberacao.ok "ESC_W").db,
            chamou_custodia := false, aviso_fora_de_ordem := false }
    ∧ liberar_produto_fornecedor
        (liberar_produto_fornecedor
          (liberar_taxa
            [{ codigo_escrow := "ESC_W", transaction_id := "T1",
               id_fornecedor := "F1", valor_taxa := 5, valor_produto := 100,
               status_escrow := Status.PENDENTE }]
            CustodiaLiberacao.ok "ESC_W").db
          CustodiaLiberacao.ok "ESC_W").db CustodiaLiberacao.ok "ESC_W"
        = { resultado := { sucesso := false,
                           erro := some "Escrow já foi finalizado anteriormente",
                           novo_status := none, valor_liberado := none },
            db := (liberar_produto_fornecedor
                    (liberar_taxa
                      [{ codigo_escrow := "ESC_W", transaction_id := "T1",
                         id_fornecedor := "F1", valor_taxa := 5,
                         valor_produto := 100, status_escrow := Status.PENDENTE }]
                      CustodiaLiberacao.ok "ESC_W").db
                    CustodiaLiberacao.ok "ESC_W").db,
            chamou_custodia := false, aviso_fora_de_ordem := false } :=
  escrow_ciclo
    [{ codigo_escrow := "ESC_W", transaction_id := "T1", id_fornecedor := "F1",
       valor_taxa := 5, valor_produto := 100, status_escrow := Status.PENDENTE }]
    "ESC_W"
    { codigo_escrow := "ESC_W", transaction_id := "T1", id_fornecedor := "F1",
      valor_taxa := 5, valor_produto := 100, status_escrow := Status.PENDENTE }
    CustodiaLiberacao.ok (by rfl) (by rfl)

/-
C2: routing order and first-success semantics.
-/

/-- C2: the router invokes acquirers strictly in configured priority
order: the invocation trace is exactly the failing priority-order head of
the configured list followed by the first succeeding acquirer (if any), so
nothing is invoked after a success and no acquirer is retried; the result
is success exactly when some configured acquirer succeeds, and it carries
the name and transaction id of the first succeeding one. -/
theorem processar_pagamento_ordem (enviar : String → RespostaEnvio)
    (cust : CustodiaCriacao) (codigo_local id_fornecedor : String)
    (valor_taxa valor_produto : ℚ) (roteamento : List String) (db : List Escrow) :
    (processar_pagamento_escrow enviar cust codigo_local id_fornecedor valor_taxa
        valor_produto roteamento db).2.2
      = roteamento.takeWhile (fun a => !(enviar a).sucesso)
          ++ (roteamento.dropWhile (fun a => !(enviar a).sucesso)).take 1
    ∧ (processar_pagamento_escrow enviar cust codigo_local id_fornecedor valor_taxa
        valor_produto roteamento db).1.sucesso
      = roteamento.any (fun a => (enviar a).sucesso)
    ∧ (processar_pagamento_escrow enviar cust codigo_local id_fornecedor valor_taxa
        valor_produto roteamento db).1.adquirente
      = (roteamento.dropWhile (fun a => !(enviar a).sucesso)).head?
    ∧ (processar_pagamento_escrow enviar cust codigo_local id_fornecedor valor_taxa
        valor_produto roteamento db).1.transaction_id
      = ((roteamento.dropWhile (fun a => !(enviar a).sucesso)).head?).map
          (fun a => (enviar a).transaction_id) := by
  induction roteamento with
  | nil => exact ⟨rfl, rfl, rfl, rfl⟩
  | cons adquirente resto ih =>
      by_cases h : (enviar adquirente).sucesso
      · simp [processar_pagamento_escrow, h, List.takeWhile_cons, List.dropWhile_cons]
      · have hred : processar_pagamento_escrow enviar cust codigo_local id_fornecedor
            valor_taxa valor_produto (adquirente :: resto) db
            = ((processar_pagamento_escrow enviar cust codigo_local id_fornecedor
                valor_taxa valor_produto resto db).1,
               (processar_pagamento_escrow enviar cust codigo_local id_fornecedor
                valor_taxa valor_produto resto db).2.1,
               adquirente :: (processar_pagamento_escrow enviar cust codigo_local
                id_fornecedor valor_taxa valor_produto resto db).2.2) := by
          simp [processar_pagamento_escrow, h]
        have hp : (!(enviar adquirente).sucesso) = true := by simp [h]
        rw [hred]
        refine ⟨?_, ?_, ?_, ?_⟩
        · simp [List.takeWhile_cons, List.dropWhile_cons, hp, ih.1]
        · simp [List.any_cons, h, ih.2.1]
        · simp [List.dropWhile_cons, hp, ih.2.2.1]
        · simp [List.dropWhile_cons, hp, ih.2.2.2]

/-
C3: denial iff all acquirers fail; records exist iff payment succeeded.
-/

/-- C3: the router returns a denial exactly when every configured acquirer
fails; on denial no escrow code is returned and the record store is
untouched (no record created); on success exactly one record is created
and the returned escrow code is the code of that record. -/
theorem processar_pagamento_negacao (enviar : String → RespostaEnvio)
    (cust : CustodiaCriacao) (codigo_local id_fornecedor : String)
    (valor_taxa valor_produto : ℚ) (roteamento : List String) (db : List Escrow) :
    ((processar_pagamento_escrow enviar cust codigo_local id_fornecedor valor_taxa
        valor_produto roteamento db).1.sucesso = false
      ↔ ∀ a ∈ roteamento, (enviar a).sucesso = false)
    ∧ ((processar_pagamento_escrow enviar cust codigo_local id_fornecedor valor_taxa
        valor_produto roteamento db).1.sucesso = false →
        (processar_pagamento_escrow enviar cust codigo_local id_fornecedor valor_taxa
            valor_produto roteamento db).1.codigo_escrow = none
        ∧ (processar_pagamento_escrow enviar cust codigo_local id_fornecedor valor_taxa
            valor_produto roteamento db).1.status = "negado"
        ∧ (processar_pagamento_escrow enviar cust codigo_local id_fornecedor valor_taxa
            valor_produto roteamento db).2.1 = db)
    ∧ ((processar_pagamento_escrow enviar cust codigo_local id_fornecedor valor_taxa
        valor_produto roteamento db).1.sucesso = true →
        ∃ e : Escrow,
          (processar_pagamento_escrow enviar cust codigo_local id_fornecedor valor_taxa
              valor_produto roteamento db).2.1 = db ++ [e]
          ∧ (processar_pagamento_escrow enviar cust codigo_local id_fornecedor
              valor_taxa valor_produto roteamento db).1.codigo_escrow
            = some e.codigo_escrow) := by
  induction roteamento with
  | nil =>
      refine ⟨by simp [processar_pagamento_escrow], ?_, ?_⟩
      · intro _
        exact ⟨rfl, rfl, rfl⟩
      · intro hsuc
        simp [processar_pagamento_escrow] at hsuc
  | cons adquirente resto ih =>
      by_cases h : (enviar adquirente).sucesso
      · obtain ⟨e, he⟩ := registrar_escrow_existe db codigo_local cust
          (enviar adquirente).transaction_id id_fornecedor valor_taxa valor_produto
        refine ⟨?_, ?_, ?_⟩
        · simp [processar_pagamento_escrow, h]
        · intro hfalso
          simp [processar_pagamento_escrow, h] at hfalso
        · intro _
          refine ⟨e, ?_, ?_⟩
          · simp [processar_pagamento_escrow, h, he]
          · simp [processar_pagamento_escrow, h, he]
      · have hred : processar_pagamento_escrow enviar cust codigo_local id_fornecedor
            valor_taxa valor_produto (adquirente :: resto) db
            = ((processar_pagamento_escrow enviar cust codigo_local id_fornecedor
                valor_taxa valor_produto resto db).1,
               (processar_pagamento_escrow enviar cust codigo_local id_fornecedor
                valor_taxa valor_produto resto db).2.1,
               adquirente :: (processar_pagamento_escrow enviar cust codigo_local
                id_fornecedor valor_taxa valor_produto resto db).2.2) := by
          simp [processar_pagamento_escrow, h]
        rw [hred]
        refine ⟨?_, ih.2.1, ih.2.2⟩
        rw [ih.1]
        constructor
        · intro hall a ha
          rcases List.mem_cons.mp ha with rfl | ha
          · exact Bool.eq_false_iff.mpr h
          · exact hall a ha
        · intro hall a ha
          exact hall a (List.mem_cons_of_mem _ ha)

/-- Witness for `processar_pagamento_negacao`: both configured acquirers
decline, so the payment is denied with no escrow code and an unchanged
(empty) store. -/
theorem processar_pagamento_negacao_witness :
    (processar_pagamento_escrow
        (fun _ => { sucesso := false, transaction_id := "", erro := "card_declined" })
        CustodiaCriacao.falha "ESC_LOCAL" "FORN_1" 5 100 roteamento_prioritario
        []).1.codigo_escrow = none
    ∧ (processar_pagamento_escrow
        (fun _ => { sucesso := false, transaction_id := "", erro := "card_declined" })
        CustodiaCriacao.falha "ESC_LOCAL" "FORN_1" 5 100 roteamento_prioritario
        []).1.status = "negado"
    ∧ (processar_pagamento_escrow
        (fun _ => { sucesso := false, transaction_id := "", erro := "card_declined" })
        CustodiaCriacao.falha "ESC_LOCAL" "FORN_1" 5 100 roteamento_prioritario
        []).2.1 = ([] : List Escrow) :=
  (processar_pagamento_negacao
      (fun _ => { sucesso := false, transaction_id := "", erro := "card_declined" })
      CustodiaCriacao.falha "ESC_LOCAL" "FORN_1" 5 100 roteamento_prioritario []).2.1
    (by rfl)

/-
C8: oracle failure degrades to the standard fee.
-/

/-- Projection: whether a checkout outcome was processed (reached the
payment router) rather than rejected with a validation error. -/
def saida_processada : SaidaCheckout → Bool
  | SaidaCheckout.rejeitado _ => false
  | SaidaCheckout.processado _ _ => true

/-- Projection: the fee percentage of a processed checkout outcome. -/
def saida_percentual : SaidaCheckout → Option ℚ
  | SaidaCheckout.rejeitado _ => none
  | SaidaCheckout.processado r _ => some r.percentual_taxa

/-- Projection: the token-holder flag of a processed checkout outcome. -/
def saida_token_holder : SaidaCheckout → Option Bool
  | SaidaCheckout.rejeitado _ => none
  | SaidaCheckout.processado r _ => some r.token_holder

/-- C8: whenever the token oracle reports any error (unavailable Web3
service, invalid wallet address, or a blockchain read error), the holder
flag is false, so checkout applies the standard rate and behaves exactly
as a checkout without a wallet: the request is still processed and the
oracle failure is never surfaced as a failure of the payment request. -/
theorem oracle_falha_degrada (v : VerificadorWeb3) (endereco : String)
    (enviar : String → RespostaEnvio) (cust : CustodiaCriacao)
    (codigo_local card_token id_fornecedor : String)
    (taxa_com_token taxa_sem_token valor_produto : ℚ) (roteamento : List String)
    (db : List Escrow)
    (hvp : 0 < valor_produto)
    (herro : (verificar_posse_token v endereco).erro ≠ none) :
    (verificar_posse_token v endereco).token_holder = false
    ∧ checkout v enviar cust codigo_local taxa_com_token taxa_sem_token roteamento db
        { card_token := some card_token, valor_produto := valor_produto,
          id_fornecedor := some id_fornecedor, endereco_carteira := some endereco }
      = checkout v enviar cust codigo_local taxa_com_token taxa_sem_token roteamento db
          { card_token := some card_token, valor_produto := valor_produto,
            id_fornecedor := some id_fornecedor, endereco_carteira := none }
    ∧ saida_processada
        (checkout v enviar cust codigo_local taxa_com_token taxa_sem_token roteamento db
          { card_token := some card_token, valor_produto := valor_produto,
            id_fornecedor := some id_fornecedor, endereco_carteira := some endereco })
      = true
    ∧ saida_percentual
        (checkout v enviar cust codigo_local taxa_com_token taxa_sem_token roteamento db
          { card_token := some card_token, valor_produto := valor_produto,
            id_fornecedor := some id_fornecedor, endereco_carteira := some endereco })
      = some taxa_sem_token
    ∧ saida_token_holder
        (checkout v enviar cust codigo_local taxa_com_token taxa_sem_token roteamento db
          { card_token := some card_token, valor_produto := valor_produto,
            id_fornecedor := some id_fornecedor, endereco_carteira := some endereco })
      = some false := by
  have hth : (verificar_posse_token v endereco).token_holder = false := by
    by_cases hd : v.disponivel = false
    · simp [verificar_posse_token, hd]
    · by_cases ha : v.endereco_valido endereco = false
      · simp [verificar_posse_token, hd, ha]
      · cases hl : v.leitura_saldo endereco with
        | none => simp [verificar_posse_token, hd, ha, hl]
        | some saldo_raw =>
            exfalso
            apply herro
            simp [verificar_posse_token, hd, ha, hl]
  have hnle : ¬ valor_produto ≤ 0 := not_le.mpr hvp
  refine ⟨hth, ?_, ?_, ?_, ?_⟩ <;>
    simp [checkout, saida_processada, saida_percentual, saida_token_holder,
      hnle, hth, calcular_taxa]

/-- Witness for `oracle_falha_degrada`: an unreachable Web3 service (no
connection), so the oracle reports the unavailable-service error and the
checkout of a 100-unit product is processed at the standard 5% rate. -/
theorem oracle_falha_degrada_witness :
    (verificar_posse_token
        { disponivel := false, endereco_valido := fun _ => true,
          leitura_saldo := fun _ => some 0, decimals := 18, min_balance := 100 }
        "0xABC").token_holder = false
    ∧ checkout
        { disponivel := false, endereco_valido := fun _ => true,
          leitura_saldo := fun _ => some 0, decimals := 18, min_balance := 100 }
        (fun _ => { sucesso := true, transaction_id := "MP_1", erro := "" })
        CustodiaCriacao.falha "ESC_LOCAL" 2 5 roteamento_prioritario []
        { card_token := some "tok_1", valor_produto := 100,
          id_fornecedor := some "FORN_1", endereco_carteira := some "0xABC" }
      = checkout
          { disponivel := false, endereco_valido := fun _ => true,
            leitura_saldo := fun _ => some 0, decimals := 18, min_balance := 100 }
          (fun _ => { sucesso := true, transaction_id := "MP_1", erro := "" })
          CustodiaCriacao.falha "ESC_LOCAL" 2 5 roteamento_prioritario []
          { card_token := some "tok_1", valor_produto := 100,
            id_fornecedor := some "FORN_1", endereco_carteira := none }
    ∧ saida_processada
        (checkout
          { disponivel := false, endereco_valido := fun _ => true,
            leitura_saldo := fun _ => some 0, decimals := 18, min_balance := 100 }
          (fun _ => { sucesso := true, transaction_id := "MP_1", erro := "" })
          CustodiaCriacao.falha "ESC_LOCAL" 2 5 roteamento_prioritario []
          { card_token := some "tok_1", valor_produto := 100,
            id_fornecedor := some "FORN_1", endereco_carteira := some "0xABC" })
      = true
    ∧ saida_percentual
        (checkout
          { disponivel := false, endereco_valido := fun _ => true,
            leitura_saldo := fun _ => some 0, decimals := 18, min_balance := 100 }
          (fun _ => { sucesso := true, transaction_id := "MP_1", erro := "" })
          CustodiaCriacao.falha "ESC_LOCAL" 2 5 roteamento_prioritario []
          { card_token := some "tok_1", valor_produto := 100,
            id_fornecedor := some "FORN_1", endereco_carteira := some "0xABC" })
      = some 5
    ∧ saida_token_holder
        (checkout
          { disponivel := false, endereco_valido := fun _ => true,
            leitura_saldo := fun _ => some 0, decimals := 18, min_balance := 100 }
          (fun _ => { sucesso := true, transaction_id := "MP_1", erro := "" })
          CustodiaCriacao.falha "ESC_LOCAL" 2 5 roteamento_prioritario []
          { card_token := some "tok_1", valor_produto := 100,
            id_fornecedor := some "FORN_1", endereco_carteira := some "0xABC" })
      = some false :=
  oracle_falha_degrada
    { disponivel := false, endereco_valido := fun _ => true,
      leitura_saldo := fun _ => some 0, decimals := 18, min_balance := 100 }
    "0xABC"
    (fun _ => { sucesso := true, transaction_id := "MP_1", erro := "" })
    CustodiaCriacao.falha "ESC_LOCAL" "tok_1" "FORN_1" 2 5 100
    roteamento_prioritario []
    (by norm_num) (by simp [verificar_posse_token])

end Gateway
